import Mathlib

/-!
Verification of the Ubuntu Image Fetcher (src/main.py) against its specification.

The development shallowly embeds the fetch pipeline of the repository: URL
normalization (validate_url), response safety checking (check_content_safety),
filename derivation (get_filename_from_url), content-hash deduplication,
collision-safe path resolution, the single-fetch orchestrator (fetch_image) and
the batch runner (fetch_multiple_images).  Python byte strings are lists of
byte values, the in-memory session state (target directory, seen digest set,
files on storage) is passed explicitly, the network and the clock are an
explicit environment, and Python exceptions are values of an Except type.
-/

namespace ImageFetcher

/-- Byte payloads are modelled as lists of byte values. -/
abbrev Bytes := List Nat

/-! ### Models of the Python standard-library functions used by src/main.py -/

/-- Characters removed by the Python str.strip() call in validate_url
(restricted to the ASCII whitespace characters). -/
def pyIsSpace (c : Char) : Bool :=
  c = ' ' || c = '\t' || c = '\n' || c = '\r' || c = '\x0b' || c = '\x0c'

/-- Python str.strip() on a character list: drop whitespace from both ends. -/
def pyStripList (cs : List Char) : List Char :=
  ((cs.dropWhile pyIsSpace).reverse.dropWhile pyIsSpace).reverse

/-- Python str.strip() as used by validate_url. -/
def pyStrip (s : String) : String :=
  (pyStripList s.data).asString

/-- Python str.startswith (also the semantics of the corresponding tuple
form, applied to each alternative). -/
def pyStartsWith (s pat : String) : Bool :=
  pat.data.isPrefixOf s.data

/-- Python str.endswith, used by the os.path.join model. -/
def pyEndsWith (s pat : String) : Bool :=
  pat.data.isSuffixOf s.data

/-- Python str.lower restricted to ASCII (the only case the program meets). -/
def pyToLower (s : String) : String :=
  (s.data.map Char.toLower).asString

/-- Result component of urllib.parse.urlparse that the program reads:
scheme, netloc (host component) and path. -/
structure UrlParts where
  scheme : String
  netloc : String
  path : String
deriving DecidableEq

/-- Characters allowed in a URL scheme by urllib.parse (letters, digits
and the characters plus, minus, dot). -/
def schemeChar (c : Char) : Bool :=
  c.isAlphanum || c = '+' || c = '-' || c = '.'

/-- Whether the first character of a list is a letter (helper of
splitScheme). -/
def headIsAlpha (cs : List Char) : Bool :=
  match cs.head? with
  | some c => c.isAlpha
  | none => false

/-- Scheme splitting step of urllib.parse.urlsplit: a prefix before the first
colon is taken as the scheme when it is nonempty, starts with a letter and
consists of scheme characters only; the scheme is lowercased. -/
def splitScheme (cs : List Char) : List Char × List Char :=
  match cs.findIdx? (fun c => c = ':') with
  | some i =>
    if 0 < i ∧ (cs.take i).all schemeChar = true ∧ headIsAlpha cs = true then
      ((cs.take i).map Char.toLower, cs.drop (i + 1))
    else ([], cs)
  | none => ([], cs)

/-- Characters ending the netloc section in urllib.parse.urlsplit. -/
def netlocDelim (c : Char) : Bool :=
  c = '/' || c = '?' || c = '#'

/-- Model of urllib.parse.urlparse, covering the fields the program reads.
As in CPython, ASCII tab and newline characters are removed from the input
first, the netloc is parsed only after a double slash, and a netloc holding
an unbalanced square bracket raises ValueError (message "Invalid IPv6 URL"),
modelled as the error case of Except.  The path runs from the end of the
netloc to the first query or fragment delimiter. -/
def pyUrlparse (url : String) : Except String UrlParts :=
  let cs := url.data.filter (fun c => ¬ (c = '\t' ∨ c = '\r' ∨ c = '\n'))
  let sr := splitScheme cs
  let nr : List Char × List Char :=
    match sr.2 with
    | '/' :: '/' :: r =>
      (r.takeWhile (fun c => ¬ netlocDelim c = true), r.dropWhile (fun c => ¬ netlocDelim c = true))
    | r => ([], r)
  if (nr.1.contains '[' ∧ ¬ nr.1.contains ']') ∨
      (nr.1.contains ']' ∧ ¬ nr.1.contains '[') then
    .error "Invalid IPv6 URL"
  else
    .ok ⟨sr.1.asString, nr.1.asString,
      (nr.2.takeWhile (fun c => ¬ (c = '?' ∨ c = '#'))).asString⟩

/-- Model of os.path.basename: the part of the path after the last slash. -/
def osPathBasename (p : String) : String :=
  ((p.data.reverse.takeWhile (fun c => c ≠ '/')).reverse).asString

/-- Model of posixpath.splitext: split at the last dot of the last path
segment, unless every character of that segment before the dot is itself a
dot (so names made only of leading dots are not split). -/
def osPathSplitext (p : String) : String × String :=
  let rev := p.data.reverse
  let revBase := rev.takeWhile (fun c => c ≠ '/')
  match revBase.findIdx? (fun c => c = '.') with
  | none => (p, "")
  | some k =>
    if (revBase.drop (k + 1)).any (fun c => c ≠ '.') then
      (((rev.drop (k + 1)).reverse).asString, ((rev.take (k + 1)).reverse).asString)
    else (p, "")

/-- Model of os.path.join for the two-argument form used by fetch_image. -/
def osPathJoin (a b : String) : String :=
  if pyStartsWith b "/" then b
  else if a = "" ∨ pyEndsWith a "/" = true then a ++ b
  else a ++ "/" ++ b

/-- Helper for the model of the Python int() constructor: no two adjacent
underscores. -/
def noDoubleUnderscore : List Char → Bool
  | '_' :: '_' :: _ => false
  | _ :: rest => noDoubleUnderscore rest
  | [] => true

/-- Digit sequences accepted by the Python int() constructor after sign
handling: nonempty, first and last characters are digits, every character is
a digit or an underscore, and underscores are never adjacent. -/
def validDigits (cs : List Char) : Bool :=
  (!cs.isEmpty) &&
  cs.all (fun c => c.isDigit || c = '_') &&
  (match cs.head? with | some c => c.isDigit | none => false) &&
  (match cs.getLast? with | some c => c.isDigit | none => false) &&
  noDoubleUnderscore cs

/-- Numeric value of a digit sequence, ignoring underscores. -/
def digitsVal (cs : List Char) : Nat :=
  cs.foldl (fun acc c => if c = '_' then acc else acc * 10 + (c.toNat - '0'.toNat)) 0

/-- Model of the Python int() constructor on strings (base 10): surrounding
whitespace is stripped, one optional sign is allowed, and the rest must be a
valid digit sequence; none models the ValueError raised otherwise. -/
def pyInt (s : String) : Option Int :=
  match pyStripList s.data with
  | '+' :: rest => if validDigits rest then some ((digitsVal rest : Nat) : Int) else none
  | '-' :: rest => if validDigits rest then some (-((digitsVal rest : Nat) : Int)) else none
  | rest => if validDigits rest then some ((digitsVal rest : Nat) : Int) else none

/-- Model of the Python standard-library mimetypes.guess_extension table,
restricted to image types (lookups are lowercased as in the library; entries
not in the table yield none). -/
def mimetypesGuessExtension (tp : String) : Option String :=
  let tp := pyToLower tp
  if tp = "image/png" then some ".png"
  else if tp = "image/jpeg" then some ".jpg"
  else if tp = "image/gif" then some ".gif"
  else if tp = "image/bmp" then some ".bmp"
  else if tp = "image/tiff" then some ".tiff"
  else if tp = "image/webp" then some ".webp"
  else if tp = "image/svg+xml" then some ".svg"
  else if tp = "image/x-icon" then some ".ico"
  else none

/-! ### The repository functions (UbuntuImageFetcher methods in src/main.py) -/

/-- Scheme-prepending step of validate_url: when the raw string lacks an
explicit http or https prefix, the secure scheme is prepended. -/
def addScheme (url : String) : String :=
  if pyStartsWith url "http://" || pyStartsWith url "https://" then url
  else "https://" ++ url

/-- Embedding of UbuntuImageFetcher.validate_url.  The result mirrors the
Python pair (clean_url, error): exactly one component is present. -/
def validate_url (url : String) : Option String × Option String :=
  if pyStrip url = "" then (none, some "URL cannot be empty")
  else
    let url := addScheme url
    match pyUrlparse url with
    | .error e => (none, some ("URL parsing error: " ++ e))
    | .ok parsed =>
      if parsed.netloc = "" then (none, some "Invalid URL format")
      else (some url, none)

/-- Filename sanitization step of get_filename_from_url: keep only
alphanumeric characters, dot, minus and underscore. -/
def sanitizeFilename (s : String) : String :=
  (s.data.filter (fun c => c.isAlphanum || c = '.' || c = '-' || c = '_')).asString

/-- Python content_type.split(sep)[0] for the semicolon separator. -/
def takeBeforeSemicolon (s : String) : String :=
  (s.data.takeWhile (fun c => c ≠ ';')).asString

/-- Embedding of UbuntuImageFetcher.get_filename_from_url.  The timestamp
argument stands for int(time.time()).  The urlparse call can raise ValueError
on pathological URLs, hence the Except result; the repository only reaches
this function with URLs that already passed validate_url. -/
def get_filename_from_url (url : String) (contentType : Option String)
    (timestamp : Nat) : Except String String :=
  match pyUrlparse url with
  | .error e => .error e
  | .ok parsed =>
    let filename := osPathBasename parsed.path
    let filename :=
      if filename = "" ∨ ¬ (filename.data.contains '.' = true) then
        match contentType with
        | some ct =>
          if ct = "" then "image_" ++ Nat.repr timestamp ++ ".jpg"
          else
            match mimetypesGuessExtension (takeBeforeSemicolon ct) with
            | some extension => "image_" ++ Nat.repr timestamp ++ extension
            | none => "image_" ++ Nat.repr timestamp ++ ".jpg"
        | none => "image_" ++ Nat.repr timestamp ++ ".jpg"
      else filename
    .ok (sanitizeFilename filename)

/-- Embedding of UbuntuImageFetcher.check_content_safety.  The argument pair
is the declared content-type and content-length header (absent headers are
none).  An error value models the ValueError raised by int() on a truthy
non-integer content-length (the CPython message quotes the literal; the
quotes are omitted here). -/
def check_content_safety (contentType : Option String)
    (contentLength : Option String) : Except String (Bool × String) :=
  let ct := pyToLower (contentType.getD "")
  if ¬ pyStartsWith ct "image/" = true then
    .ok (false, "Content is not an image (type: " ++ ct ++ ")")
  else
    match contentLength with
    | none => .ok (true, "Safe to download")
    | some s =>
      if s = "" then .ok (true, "Safe to download")
      else
        match pyInt s with
        | none => .error ("invalid literal for int() with base 10: " ++ s)
        | some v =>
          if v > 50 * 1024 * 1024 then .ok (false, "Image too large (>50MB)")
          else .ok (true, "Safe to download")

/-- Stand-in for UbuntuImageFetcher.calculate_content_hash, which returns
hashlib.sha256(content).hexdigest().  Every claim about the program uses the
digest only as a deterministic function of the byte payload used as a
set-membership key, so this executable stand-in encodes the bytes injectively
into a string instead of computing SHA-256. -/
def calculate_content_hash (content : Bytes) : String :=
  content.foldl (fun acc b => acc ++ "," ++ Nat.repr b) "h"

/-- One candidate path of the filename-conflict loop in fetch_image:
name_counter-ext for the splitext decomposition of the original path. -/
def collisionCandidate (orig : String) (counter : Nat) : String :=
  (osPathSplitext orig).1 ++ "_" ++ Nat.repr counter ++ (osPathSplitext orig).2

/-- Fuel-indexed unfolding of the while os.path.exists(filepath) loop of
fetch_image, with the occupancy check abstracted to a Boolean predicate. -/
def resolveCollisionAux (occupied : String → Bool) (orig : String) :
    Nat → String → Nat → String
  | 0, current, _ => current
  | fuel + 1, current, counter =>
    if occupied current then
      resolveCollisionAux occupied orig fuel (collisionCandidate orig counter) (counter + 1)
    else current

/-- The filename-conflict loop of fetch_image against a finite set of
existing paths.  The fuel bound suffices: the loop tries pairwise distinct
candidates, so it finds an unused path within length-plus-one steps. -/
def resolveCollision (paths : List String) (filepath : String) : String :=
  resolveCollisionAux (fun p => paths.contains p) filepath (paths.length + 1) filepath 1

/-- Session state of a UbuntuImageFetcher object together with the storage it
writes to: target directory, the downloaded_hashes seen-set, and the files
present on storage (path and content). -/
structure FetcherState where
  directory : String
  downloadedHashes : List String
  files : List (String × Bytes)
deriving DecidableEq

/-- Response metadata and payload of one HTTP request, as read by the
program: status code, declared content-type and content-length headers, and
the body bytes. -/
structure Response where
  statusCode : Nat
  contentType : Option String
  contentLength : Option String
  content : Bytes
deriving DecidableEq

/-- Transport-level outcome of the session.get call in fetch_image. -/
inductive RequestOutcome where
  | ok (resp : Response)
  | timeout
  | connectionError
  | requestError (msg : String)
deriving DecidableEq

/-- Environment of one fetch attempt: the request outcome, the value of
int(time.time()) during the attempt, and whether opening or writing the
destination file raises an IOError (with its message). -/
structure FetchEnv where
  outcome : RequestOutcome
  timestamp : Nat
  writeError : Option String
deriving DecidableEq

/-- Python set.add on the seen-set, with set semantics over a list. -/
def hashInsert (h : String) (hashes : List String) : List String :=
  if h ∈ hashes then hashes else h :: hashes

/-- Payload bytes carried by a request outcome (empty for transport
failures, which never reach the body read). -/
def contentOf : RequestOutcome → Bytes
  | .ok resp => resp.content
  | _ => []

/-- Embedding of UbuntuImageFetcher.fetch_image.  The result mirrors the
Python pair (success flag, filepath or reason); the state carries the
seen-set and the storage.  Every Python except branch is a value-level
branch, in the order of the source: transport failures, raise_for_status on
an error status (404 and 403 special-cased), the safety check (whose
ValueError lands in the generic Exception handler), the duplicate check, the
filename resolution, the conflict loop, and the IOError handler around the
file write. -/
def fetch_image (url : String) (env : FetchEnv) (st : FetcherState) :
    (Bool × String) × FetcherState :=
  match env.outcome with
  | .timeout => ((false, "Connection timeout - the server took too long to respond"), st)
  | .connectionError => ((false, "Connection failed - check your internet connection"), st)
  | .requestError msg => ((false, "Request error: " ++ msg), st)
  | .ok resp =>
    if 400 ≤ resp.statusCode ∧ resp.statusCode < 600 then
      if resp.statusCode = 404 then ((false, "Image not found (404)"), st)
      else if resp.statusCode = 403 then
        ((false, "Access forbidden (403) - server rejected the request"), st)
      else ((false, "HTTP error " ++ Nat.repr resp.statusCode), st)
    else
      match check_content_safety resp.contentType resp.contentLength with
      | .error msg => ((false, "Unexpected error: " ++ msg), st)
      | .ok (false, message) => ((false, "Safety check failed: " ++ message), st)
      | .ok (true, _) =>
        let content := resp.content
        let contentHash := calculate_content_hash content
        if contentHash ∈ st.downloadedHashes then
          ((false, "Duplicate image (already downloaded)"), st)
        else
          match get_filename_from_url url resp.contentType env.timestamp with
          | .error e => ((false, "Unexpected error: " ++ e), st)
          | .ok filename =>
            let filepath := resolveCollision (st.files.map Prod.fst)
                              (osPathJoin st.directory filename)
            match env.writeError with
            | some msg => ((false, "File save error: " ++ msg), st)
            | none =>
              ((true, filepath),
               { st with
                 files := (filepath, content) :: st.files,
                 downloadedHashes := hashInsert contentHash st.downloadedHashes })

/-- Aggregate outcome of fetch_multiple_images: the returned counters, the
number of time.sleep(0.5) pacing calls performed, the URLs in processing
order, and the final session state. -/
structure BatchResult where
  successful : Nat
  failed : Nat
  sleeps : Nat
  processed : List String
  finalState : FetcherState
deriving DecidableEq

/-- Loop of UbuntuImageFetcher.fetch_multiple_images.  Each URL is validated;
a validation error counts as failed and continues to the next URL — the
continue statement of the source skips the pacing sleep.  Otherwise the URL
is fetched through fetch_image with the environment the network assigns to
the clean URL, the matching counter moves, and the pacing sleep happens
exactly when further items remain (the i less than len(urls) guard of the
source).  validate_url never returns a pair with both components absent, so
the default string in the fetch branch is dead. -/
def fetch_multiple_images_aux (net : String → FetchEnv) :
    List String → FetcherState → Nat → Nat → Nat → List String → BatchResult
  | [], st, succ, failedCount, sleeps, processedRev =>
    ⟨succ, failedCount, sleeps, processedRev.reverse, st⟩
  | u :: rest, st, succ, failedCount, sleeps, processedRev =>
    match validate_url u with
    | (_, some _) =>
      fetch_multiple_images_aux net rest st succ (failedCount + 1) sleeps
        (u :: processedRev)
    | (cleanOpt, none) =>
      let clean := cleanOpt.getD ""
      let r := fetch_image clean (net clean) st
      let counters : Nat × Nat :=
        if r.1.1 then (succ + 1, failedCount) else (succ, failedCount + 1)
      let sleeps' := if rest.isEmpty then sleeps else sleeps + 1
      fetch_multiple_images_aux net rest r.2 counters.1 counters.2 sleeps'
        (u :: processedRev)

/-- Embedding of UbuntuImageFetcher.fetch_multiple_images. -/
def fetch_multiple_images (net : String → FetchEnv) (urls : List String)
    (st : FetcherState) : BatchResult :=
  fetch_multiple_images_aux net urls st 0 0 0 []

/-- Number of pacing sleeps the batch loop performs on a URL list: one per
item that is not the last and whose URL passes validation (the continue on a
validation error skips the sleep). -/
def pacingSleeps : List String → Nat
  | [] => 0
  | u :: rest =>
    (if rest.isEmpty then 0 else if (validate_url u).2 = none then 1 else 0) +
      pacingSleeps rest

/-! ### Decimal representation: injectivity of Nat.repr

The conflict loop of fetch_image embeds the counter in the candidate path via
its decimal representation; distinctness of the candidates reduces to
injectivity of Nat.repr, proved here through a structurally recursive digit
function. -/

/-- Decimal digit characters of a natural number, most significant first
(structural counterpart of the fuel-based Nat.toDigits from core). -/
def natChars (n : Nat) : List Char :=
  if n < 10 then [Nat.digitChar n]
  else
    natChars (n / 10) ++ [Nat.digitChar (n % 10)]
decreasing_by exact Nat.div_lt_self (by omega) (by omega)

theorem natChars_lt {n : Nat} (h : n < 10) : natChars n = [Nat.digitChar n] := by
  rw [natChars, if_pos h]

theorem natChars_ge {n : Nat} (h : ¬ n < 10) :
    natChars n = natChars (n / 10) ++ [Nat.digitChar (n % 10)] := by
  rw [natChars, if_neg h]

theorem natChars_ne_nil (n : Nat) : natChars n ≠ [] := by
  by_cases h : n < 10
  · rw [natChars_lt h]; simp
  · rw [natChars_ge h]; simp

theorem toDigitsCore_eq_natChars (fuel : Nat) :
    ∀ n ds, n < fuel → Nat.toDigitsCore 10 fuel n ds = natChars n ++ ds := by
  induction fuel with
  | zero => intro n ds h; omega
  | succ fuel ih =>
    intro n ds h
    by_cases h10 : n / 10 = 0
    · have hlt : n < 10 := by
        rcases Nat.lt_or_ge n 10 with h' | h'
        · exact h'
        · exfalso; have := Nat.div_le_div_right (c := 10) h'; simp at this; omega
      simp only [Nat.toDigitsCore, h10, if_pos]
      rw [natChars_lt hlt, Nat.mod_eq_of_lt hlt]
      rfl
    · have hge : ¬ n < 10 := by
        intro hc; exact h10 (Nat.div_eq_of_lt hc)
      have hdiv : n / 10 < n := Nat.div_lt_self (by omega) (by omega)
      simp only [Nat.toDigitsCore, h10, if_neg]
      rw [ih (n / 10) _ (by omega), natChars_ge hge, List.append_assoc]
      rfl

theorem digitChar_injOn :
    ∀ m, m < 10 → ∀ n, n < 10 → Nat.digitChar m = Nat.digitChar n → m = n := by
  decide

theorem natChars_inj : ∀ m n : Nat, natChars m = natChars n → m = n := by
  intro m
  induction m using Nat.strong_induction_on with
  | _ m ih =>
    intro n h
    by_cases hm : m < 10 <;> by_cases hn : n < 10
    · rw [natChars_lt hm, natChars_lt hn] at h
      exact digitChar_injOn m hm n hn (by simpa using h)
    · rw [natChars_lt hm, natChars_ge hn] at h
      exfalso
      have hlen := congrArg List.length h
      simp only [List.length_append, List.length_singleton, List.length_cons,
        List.length_nil] at hlen
      exact natChars_ne_nil (n / 10) (List.length_eq_zero.mp (by omega))
    · rw [natChars_ge hm, natChars_lt hn] at h
      exfalso
      have hlen := congrArg List.length h
      simp only [List.length_append, List.length_singleton, List.length_cons,
        List.length_nil] at hlen
      exact natChars_ne_nil (m / 10) (List.length_eq_zero.mp (by omega))
    · rw [natChars_ge hm, natChars_ge hn] at h
      obtain ⟨h1, h2⟩ := List.append_inj' h (by simp)
      have hdiv : m / 10 = n / 10 :=
        ih (m / 10) (Nat.div_lt_self (by omega) (by omega)) (n / 10) h1
      have hmod : m % 10 = n % 10 :=
        digitChar_injOn _ (Nat.mod_lt _ (by omega)) _ (Nat.mod_lt _ (by omega))
          (by simpa using h2)
      omega

theorem repr_data_eq_natChars (n : Nat) : (Nat.repr n).data = natChars n := by
  show (Nat.toDigits 10 n).asString.data = natChars n
  rw [Nat.toDigits, toDigitsCore_eq_natChars (n + 1) n [] (by omega)]
  simp [List.asString]

theorem repr_inj {m n : Nat} (h : Nat.repr m = Nat.repr n) : m = n := by
  apply natChars_inj
  rw [← repr_data_eq_natChars, ← repr_data_eq_natChars, h]

theorem repr_length_pos (n : Nat) : 0 < (Nat.repr n).data.length := by
  rw [repr_data_eq_natChars]
  exact List.length_pos.mpr (natChars_ne_nil n)

/-! ### The conflict loop: distinct candidates and the no-overwrite invariant -/

theorem splitext_concat (p : String) :
    (osPathSplitext p).1.data ++ (osPathSplitext p).2.data = p.data := by
  have hdata : ∀ l : List Char, (List.asString l).data = l := fun l => rfl
  simp only [osPathSplitext]
  split
  · simp
  · split
    · rw [hdata, hdata, ← List.reverse_append, List.take_append_drop,
        List.reverse_reverse]
    · simp

theorem collisionCandidate_inj (orig : String) {i j : Nat}
    (h : collisionCandidate orig i = collisionCandidate orig j) : i = j := by
  unfold collisionCandidate at h
  have hd := congrArg String.data h
  simp only [String.data_append, List.append_assoc] at hd
  have h1 := List.append_cancel_left hd
  have h2 := List.append_cancel_left h1
  have h3 := List.append_cancel_right h2
  apply natChars_inj
  rw [← repr_data_eq_natChars, ← repr_data_eq_natChars, h3]

theorem collisionCandidate_ne_orig (orig : String) (n : Nat) :
    collisionCandidate orig n ≠ orig := by
  intro h
  have hd := congrArg (fun s => s.data.length) h
  simp only [collisionCandidate, String.data_append, List.length_append] at hd
  have hc := congrArg List.length (splitext_concat orig)
  simp only [List.length_append] at hc
  have hu : ("_" : String).data.length = 1 := rfl
  have := repr_length_pos n
  omega

/-- If the conflict loop returns an occupied path, then the initial path and
every candidate it could have tried up to its fuel are occupied. -/
theorem resolveCollisionAux_all_occupied (occupied : String → Bool) (orig : String) :
    ∀ fuel current counter,
      occupied (resolveCollisionAux occupied orig fuel current counter) = true →
      occupied current = true ∧
        ∀ i, i < fuel - 1 → occupied (collisionCandidate orig (counter + i)) = true := by
  intro fuel
  induction fuel with
  | zero =>
    intro current counter h
    exact ⟨h, fun i hi => absurd hi (by omega)⟩
  | succ fuel ih =>
    intro current counter h
    rw [resolveCollisionAux] at h
    by_cases hocc : occupied current = true
    · rw [if_pos hocc] at h
      obtain ⟨h0, hall⟩ := ih (collisionCandidate orig counter) (counter + 1) h
      refine ⟨hocc, fun i hi => ?_⟩
      cases i with
      | zero => simpa using h0
      | succ i =>
        have := hall i (by omega)
        rw [show counter + 1 + i = counter + (i + 1) by omega] at this
        exact this
    · rw [if_neg hocc] at h
      exact absurd h hocc

theorem mem_of_contains {paths : List String} {p : String}
    (h : paths.contains p = true) : p ∈ paths := by
  simpa using h

theorem contains_of_mem {paths : List String} {p : String}
    (h : p ∈ paths) : paths.contains p = true := by
  simpa using h

/-- No-overwrite invariant of the conflict loop: the resolved path is never
one of the existing paths. -/
theorem resolveCollision_not_mem (paths : List String) (p : String) :
    resolveCollision paths p ∉ paths := by
  intro hmem
  obtain ⟨h0, hall⟩ := resolveCollisionAux_all_occupied
    (fun q => paths.contains q) p (paths.length + 1) p 1 (contains_of_mem hmem)
  have hsub : (p :: (List.range paths.length).map
      (fun i => collisionCandidate p (1 + i))) ⊆ paths := by
    intro x hx
    rcases List.mem_cons.mp hx with hx | hx
    · subst hx; exact mem_of_contains h0
    · obtain ⟨i, hi, rfl⟩ := List.mem_map.mp hx
      exact mem_of_contains (hall i (by simpa using hi))
  have hnodup : (p :: (List.range paths.length).map
      (fun i => collisionCandidate p (1 + i))).Nodup := by
    refine List.nodup_cons.mpr ⟨?_, ?_⟩
    · intro hp
      obtain ⟨i, _, hieq⟩ := List.mem_map.mp hp
      exact collisionCandidate_ne_orig p (1 + i) hieq
    · refine List.Nodup.map ?_ (List.nodup_range _)
      intro a b hab
      have := collisionCandidate_inj p hab
      omega
  have hle := (hnodup.subperm hsub).length_le
  rw [List.length_cons, List.length_map, List.length_range] at hle
  omega

/-- When the initial path is unoccupied the loop returns it unchanged. -/
theorem resolveCollision_not_occupied (paths : List String) (p : String)
    (h : p ∉ paths) : resolveCollision paths p = p := by
  unfold resolveCollision resolveCollisionAux
  rw [if_neg]
  simpa using h

/-- Inner induction for the sequential characterization of the loop: if the
loop stands at candidate k with counter k + 1, candidates k through n - 1 are
occupied and candidate n is free, it returns candidate n. -/
theorem resolveCollisionAux_seq (occupied : String → Bool) (orig : String) (n : Nat) :
    ∀ fuel k, 1 ≤ k → k ≤ n →
      (∀ m, m < n → k ≤ m → occupied (collisionCandidate orig m) = true) →
      occupied (collisionCandidate orig n) = false →
      n - k < fuel →
      resolveCollisionAux occupied orig fuel (collisionCandidate orig k) (k + 1) =
        collisionCandidate orig n := by
  intro fuel
  induction fuel with
  | zero => intro k _ _ _ _ hf; omega
  | succ fuel ih =>
    intro k hk1 hkn hprev hfree hf
    by_cases hkn' : k = n
    · subst hkn'
      rw [resolveCollisionAux, if_neg (by simp [hfree])]
    · have hlt : k < n := by omega
      rw [resolveCollisionAux, if_pos (hprev k hlt le_rfl)]
      exact ih (k + 1) (by omega) (by omega)
        (fun m hm hm' => hprev m hm (by omega)) hfree (by omega)

/-- Sequential characterization of the conflict loop on an occupied path:
with candidates 1 through n - 1 occupied and candidate n free, the result is
candidate n. -/
theorem resolveCollision_seq (paths : List String) (p : String) (n : Nat)
    (hp : p ∈ paths) (hn : 1 ≤ n)
    (hprev : ∀ m, m < n → 1 ≤ m → collisionCandidate p m ∈ paths)
    (hfree : collisionCandidate p n ∉ paths) :
    resolveCollision paths p = collisionCandidate p n := by
  have hnlen : n ≤ paths.length := by
    have hsub : (p :: (List.range (n - 1)).map
        (fun i => collisionCandidate p (1 + i))) ⊆ paths := by
      intro x hx
      rcases List.mem_cons.mp hx with hx | hx
      · subst hx; exact hp
      · obtain ⟨i, hi, rfl⟩ := List.mem_map.mp hx
        exact hprev (1 + i) (by simp at hi; omega) (by omega)
    have hnodup : (p :: (List.range (n - 1)).map
        (fun i => collisionCandidate p (1 + i))).Nodup := by
      refine List.nodup_cons.mpr ⟨?_, ?_⟩
      · intro hpmem
        obtain ⟨i, _, hieq⟩ := List.mem_map.mp hpmem
        exact collisionCandidate_ne_orig p (1 + i) hieq
      · refine List.Nodup.map ?_ (List.nodup_range _)
        intro a b hab
        have := collisionCandidate_inj p hab
        omega
    have hle := (hnodup.subperm hsub).length_le
    simp at hle
    omega
  unfold resolveCollision
  rw [resolveCollisionAux, if_pos (contains_of_mem hp)]
  exact resolveCollisionAux_seq (fun q => paths.contains q) p n paths.length 1
    le_rfl hn (fun m hm hm' => contains_of_mem (hprev m hm hm'))
    (by simp [hfree]) (by omega)

/-- Decidable equality for Except results, used to evaluate the embedded
functions at concrete inputs. -/
instance {ε α : Type} [DecidableEq ε] [DecidableEq α] : DecidableEq (Except ε α) := fun a b =>
  match a, b with
  | .error x, .error y =>
    if h : x = y then isTrue (by rw [h])
    else isFalse (fun hc => h (Except.error.inj hc))
  | .ok x, .ok y =>
    if h : x = y then isTrue (by rw [h])
    else isFalse (fun hc => h (Except.ok.inj hc))
  | .error _, .ok _ => isFalse (fun hc => Except.noConfusion hc)
  | .ok _, .error _ => isFalse (fun hc => Except.noConfusion hc)

/-! ### Branch lemmas for validate_url -/

theorem validate_url_empty {url : String} (h : pyStrip url = "") :
    validate_url url = (none, some "URL cannot be empty") := by
  simp only [validate_url]
  rw [if_pos h]

theorem validate_url_parse_error {url : String} {e : String}
    (h1 : pyStrip url ≠ "") (h2 : pyUrlparse (addScheme url) = .error e) :
    validate_url url = (none, some ("URL parsing error: " ++ e)) := by
  simp only [validate_url]
  rw [if_neg h1, h2]

theorem validate_url_no_host {url : String} {parts : UrlParts}
    (h1 : pyStrip url ≠ "") (h2 : pyUrlparse (addScheme url) = .ok parts)
    (h3 : parts.netloc = "") :
    validate_url url = (none, some "Invalid URL format") := by
  simp only [validate_url]
  rw [if_neg h1, h2]
  simp [h3]

theorem validate_url_ok {url : String} {parts : UrlParts}
    (h1 : pyStrip url ≠ "") (h2 : pyUrlparse (addScheme url) = .ok parts)
    (h3 : parts.netloc ≠ "") :
    validate_url url = (some (addScheme url), none) := by
  simp only [validate_url]
  rw [if_neg h1, h2]
  simp [h3]

/-- validate_url always returns exactly one of a clean URL and an error, so
the default-string branch of the batch loop is dead code. -/
theorem validate_url_shape (url : String) :
    (∃ e, validate_url url = (none, some e)) ∨
    validate_url url = (some (addScheme url), none) := by
  by_cases hempty : pyStrip url = ""
  · left; exact ⟨_, validate_url_empty hempty⟩
  · cases hparse : pyUrlparse (addScheme url) with
    | error e => left; exact ⟨_, validate_url_parse_error hempty hparse⟩
    | ok parts =>
      by_cases hnet : parts.netloc = ""
      · left; exact ⟨_, validate_url_no_host hempty hparse hnet⟩
      · right; exact validate_url_ok hempty hparse hnet

/-! ### The claims -/

/-- C2: validate_url rejects empty or whitespace-only input with the reason
"URL cannot be empty"; whenever it succeeds on an input lacking an http or
https scheme, the returned URL is the input with "https://" prepended, and
the returned URL always parses with a nonempty host component; and when the
normalized input parses to a form without a host, it rejects with reason
"Invalid URL format". -/
theorem claim_C2 (url : String) :
    (pyStrip url = "" → validate_url url = (none, some "URL cannot be empty")) ∧
    (∀ u, validate_url url = (some u, none) →
      (¬ (pyStartsWith url "http://" = true ∨ pyStartsWith url "https://" = true) →
        u = "https://" ++ url) ∧
      ∃ parts, pyUrlparse u = .ok parts ∧ parts.netloc ≠ "") ∧
    (∀ parts, pyStrip url ≠ "" → pyUrlparse (addScheme url) = .ok parts →
      parts.netloc = "" → validate_url url = (none, some "Invalid URL format")) := by
  refine ⟨validate_url_empty, ?_, fun parts h1 h2 h3 => validate_url_no_host h1 h2 h3⟩
  intro u hu
  by_cases hempty : pyStrip url = ""
  · rw [validate_url_empty hempty] at hu
    exact absurd hu (by simp)
  · cases hparse : pyUrlparse (addScheme url) with
    | error e =>
      rw [validate_url_parse_error hempty hparse] at hu
      exact absurd hu (by simp)
    | ok parts =>
      by_cases hnet : parts.netloc = ""
      · rw [validate_url_no_host hempty hparse hnet] at hu
        exact absurd hu (by simp)
      · rw [validate_url_ok hempty hparse hnet] at hu
        have hueq : addScheme url = u := by
          simpa using congrArg Prod.fst hu
        refine ⟨?_, parts, ?_, hnet⟩
        · intro hns
          rw [← hueq]
          unfold addScheme
          rw [if_neg (by simpa [Bool.or_eq_true] using hns)]
        · rw [← hueq]
          exact hparse

/-- C2 witness: the three branches at concrete inputs — a whitespace URL, a
scheme-less URL that normalizes to https with host example.com, and a
host-less URL. -/
theorem claim_C2_witness :
    validate_url "  " = (none, some "URL cannot be empty") ∧
    ("https://example.com" = "https://" ++ "example.com" ∧
      ∃ parts, pyUrlparse "https://example.com" = .ok parts ∧ parts.netloc ≠ "") ∧
    validate_url "/foo" = (none, some "Invalid URL format") := by
  refine ⟨(claim_C2 "  ").1 (by decide), ?_, ?_⟩
  · have h := (claim_C2 "example.com").2.1 "https://example.com" (by decide)
    exact ⟨h.1 (by decide), h.2⟩
  · exact (claim_C2 "/foo").2.2 ⟨"https", "", "/foo"⟩ (by decide) (by decide) rfl

/-- Size branch of check_content_safety for a declared length that parses:
the result depends only on the comparison of the parsed value with the 50
MiB bound. -/
theorem check_content_safety_parsed {ct : Option String} {s : String} {v : Int}
    (himg : pyStartsWith (pyToLower (ct.getD "")) "image/" = true)
    (hs : s ≠ "") (hv : pyInt s = some v) :
    check_content_safety ct (some s) =
      .ok (if v > 50 * 1024 * 1024 then (false, "Image too large (>50MB)")
           else (true, "Safe to download")) := by
  simp only [check_content_safety]
  rw [if_neg (fun hc => hc himg), if_neg hs, hv]
  show (if v > 50 * 1024 * 1024 then
      (Except.ok (false, "Image too large (>50MB)") : Except String (Bool × String))
    else Except.ok (true, "Safe to download")) = _
  by_cases hc : v > 50 * 1024 * 1024
  · rw [if_pos hc, if_pos hc]
  · rw [if_neg hc, if_neg hc]

/-- C3 counterexample: the declared type "IMAGE/png" does not begin with the
string "image/", yet check_content_safety accepts the response, because the
code lowercases the declared type before the comparison.  The claim as
stated (rejection whenever the declared type does not begin with "image/")
is therefore false at this input. -/
theorem claim_C3_counterexample :
    pyStartsWith "IMAGE/png" "image/" = false ∧
    check_content_safety (some "IMAGE/png") none = .ok (true, "Safe to download") := by
  exact ⟨by decide, rfl⟩

/-- C3 (amended): check_content_safety lowercases the declared content-type;
it rejects exactly when the lowercased type does not begin with "image/",
with a reason carrying that lowercased type.  Given an image type, a
declared length that is a nonempty string parsing as an integer v is
rejected exactly when v strictly exceeds 52428800 = 50 * 1024 * 1024; an
absent length header, an empty length string, and any parsed v at most the
bound are accepted.  (A truthy non-integer declared length instead raises
ValueError, settled separately by C10.) -/
theorem claim_C3 (ct : Option String) :
    (∀ cl, ¬ (pyStartsWith (pyToLower (ct.getD "")) "image/" = true) →
      check_content_safety ct cl =
        .ok (false, "Content is not an image (type: " ++ pyToLower (ct.getD "") ++ ")")) ∧
    (pyStartsWith (pyToLower (ct.getD "")) "image/" = true →
      check_content_safety ct none = .ok (true, "Safe to download") ∧
      check_content_safety ct (some "") = .ok (true, "Safe to download") ∧
      ∀ s v, s ≠ "" → pyInt s = some v →
        ((52428800 < v →
          check_content_safety ct (some s) = .ok (false, "Image too large (>50MB)")) ∧
         (v ≤ 52428800 →
          check_content_safety ct (some s) = .ok (true, "Safe to download")))) := by
  constructor
  · intro cl h
    simp only [check_content_safety]
    rw [if_pos h]
  · intro h
    refine ⟨?_, ?_, ?_⟩
    · simp only [check_content_safety]
      rw [if_neg (fun hc => hc h)]
    · simp only [check_content_safety]
      rw [if_neg (fun hc => hc h)]
      rfl
    · intro s v hs hv
      have hlem := check_content_safety_parsed h hs hv
      constructor
      · intro hgt
        rw [hlem, if_pos (show v > 50 * 1024 * 1024 by omega)]
      · intro hle
        rw [hlem, if_neg (show ¬ v > 50 * 1024 * 1024 by omega)]

/-- C3 witness: concrete image responses — a 60000000-byte declared length
is rejected as too large, a 52428800-byte one and an absent one are
accepted. -/
theorem claim_C3_witness :
    check_content_safety (some "image/png") (some "60000000") =
      .ok (false, "Image too large (>50MB)") ∧
    check_content_safety (some "image/png") (some "52428800") =
      .ok (true, "Safe to download") ∧
    check_content_safety (some "image/png") none = .ok (true, "Safe to download") := by
  have h := (claim_C3 (some "image/png")).2 (by decide)
  exact ⟨(h.2.2 "60000000" 60000000 (by decide) (by decide)).1 (by decide),
    (h.2.2 "52428800" 52428800 (by decide) (by decide)).2 (by decide),
    h.1⟩

/-! ### Branch lemmas for fetch_image -/

theorem mem_hashInsert_self (h : String) (l : List String) : h ∈ hashInsert h l := by
  unfold hashInsert
  split
  · assumption
  · exact List.mem_cons_self h l

theorem fetch_image_http_error_eq {url : String} {env : FetchEnv} {st : FetcherState}
    {resp : Response} (houtcome : env.outcome = .ok resp)
    (h4 : 400 ≤ resp.statusCode) (h6 : resp.statusCode < 600) :
    fetch_image url env st =
      ((false,
        if resp.statusCode = 404 then "Image not found (404)"
        else if resp.statusCode = 403 then
          "Access forbidden (403) - server rejected the request"
        else "HTTP error " ++ Nat.repr resp.statusCode), st) := by
  simp only [fetch_image, houtcome]
  rw [if_pos ⟨h4, h6⟩]
  by_cases h404 : resp.statusCode = 404
  · rw [if_pos h404, if_pos h404]
  · rw [if_neg h404, if_neg h404]
    by_cases h403 : resp.statusCode = 403
    · rw [if_pos h403, if_pos h403]
    · rw [if_neg h403, if_neg h403]

theorem fetch_image_safety_error_eq {url : String} {env : FetchEnv} {st : FetcherState}
    {resp : Response} {msg : String} (houtcome : env.outcome = .ok resp)
    (hstatus : ¬ (400 ≤ resp.statusCode ∧ resp.statusCode < 600))
    (hsafe : check_content_safety resp.contentType resp.contentLength = .error msg) :
    fetch_image url env st = ((false, "Unexpected error: " ++ msg), st) := by
  simp only [fetch_image, houtcome, hsafe]
  rw [if_neg hstatus]

theorem fetch_image_unsafe_eq {url : String} {env : FetchEnv} {st : FetcherState}
    {resp : Response} {m : String} (houtcome : env.outcome = .ok resp)
    (hstatus : ¬ (400 ≤ resp.statusCode ∧ resp.statusCode < 600))
    (hsafe : check_content_safety resp.contentType resp.contentLength = .ok (false, m)) :
    fetch_image url env st = ((false, "Safety check failed: " ++ m), st) := by
  simp only [fetch_image, houtcome, hsafe]
  rw [if_neg hstatus]

theorem fetch_image_duplicate_eq {url : String} {env : FetchEnv} {st : FetcherState}
    {resp : Response} {m : String} (houtcome : env.outcome = .ok resp)
    (hstatus : ¬ (400 ≤ resp.statusCode ∧ resp.statusCode < 600))
    (hsafe : check_content_safety resp.contentType resp.contentLength = .ok (true, m))
    (hdup : calculate_content_hash resp.content ∈ st.downloadedHashes) :
    fetch_image url env st = ((false, "Duplicate image (already downloaded)"), st) := by
  simp only [fetch_image, houtcome, hsafe]
  rw [if_neg hstatus, if_pos hdup]

theorem fetch_image_filename_error_eq {url : String} {env : FetchEnv} {st : FetcherState}
    {resp : Response} {m e : String} (houtcome : env.outcome = .ok resp)
    (hstatus : ¬ (400 ≤ resp.statusCode ∧ resp.statusCode < 600))
    (hsafe : check_content_safety resp.contentType resp.contentLength = .ok (true, m))
    (hdup : calculate_content_hash resp.content ∉ st.downloadedHashes)
    (hfn : get_filename_from_url url resp.contentType env.timestamp = .error e) :
    fetch_image url env st = ((false, "Unexpected error: " ++ e), st) := by
  simp only [fetch_image, houtcome, hsafe, hfn]
  rw [if_neg hstatus, if_neg hdup]

theorem fetch_image_write_error_eq {url : String} {env : FetchEnv} {st : FetcherState}
    {resp : Response} {m fn msg : String} (houtcome : env.outcome = .ok resp)
    (hstatus : ¬ (400 ≤ resp.statusCode ∧ resp.statusCode < 600))
    (hsafe : check_content_safety resp.contentType resp.contentLength = .ok (true, m))
    (hdup : calculate_content_hash resp.content ∉ st.downloadedHashes)
    (hfn : get_filename_from_url url resp.contentType env.timestamp = .ok fn)
    (hwrite : env.writeError = some msg) :
    fetch_image url env st = ((false, "File save error: " ++ msg), st) := by
  simp only [fetch_image, houtcome, hsafe, hfn, hwrite]
  rw [if_neg hstatus, if_neg hdup]

theorem fetch_image_success_eq {url : String} {env : FetchEnv} {st : FetcherState}
    {resp : Response} {m fn : String} (houtcome : env.outcome = .ok resp)
    (hstatus : ¬ (400 ≤ resp.statusCode ∧ resp.statusCode < 600))
    (hsafe : check_content_safety resp.contentType resp.contentLength = .ok (true, m))
    (hdup : calculate_content_hash resp.content ∉ st.downloadedHashes)
    (hfn : get_filename_from_url url resp.contentType env.timestamp = .ok fn)
    (hwrite : env.writeError = none) :
    fetch_image url env st =
      ((true, resolveCollision (st.files.map Prod.fst) (osPathJoin st.directory fn)),
       { st with
         files := (resolveCollision (st.files.map Prod.fst) (osPathJoin st.directory fn),
                   resp.content) :: st.files,
         downloadedHashes := hashInsert (calculate_content_hash resp.content)
                               st.downloadedHashes }) := by
  simp only [fetch_image, houtcome, hsafe, hfn, hwrite]
  rw [if_neg hstatus, if_neg hdup]

/-- Exhaustive case analysis of fetch_image: either the attempt fails on some
branch that leaves the state unchanged, or every condition of the success
path holds. -/
theorem fetch_image_cases (url : String) (env : FetchEnv) (st : FetcherState) :
    ((fetch_image url env st).1.1 = false ∧ (fetch_image url env st).2 = st) ∨
    (∃ resp m fn, env.outcome = .ok resp ∧
      ¬ (400 ≤ resp.statusCode ∧ resp.statusCode < 600) ∧
      check_content_safety resp.contentType resp.contentLength = .ok (true, m) ∧
      calculate_content_hash resp.content ∉ st.downloadedHashes ∧
      get_filename_from_url url resp.contentType env.timestamp = .ok fn ∧
      env.writeError = none) := by
  cases henv : env.outcome with
  | timeout => left; simp [fetch_image, henv]
  | connectionError => left; simp [fetch_image, henv]
  | requestError msg => left; simp [fetch_image, henv]
  | ok resp =>
    by_cases hstatus : 400 ≤ resp.statusCode ∧ resp.statusCode < 600
    · left
      rw [fetch_image_http_error_eq henv hstatus.1 hstatus.2]
      exact ⟨rfl, rfl⟩
    · cases hsafe : check_content_safety resp.contentType resp.contentLength with
      | error msg =>
        left
        rw [fetch_image_safety_error_eq henv hstatus hsafe]
        exact ⟨rfl, rfl⟩
      | ok pr =>
        obtain ⟨b, m⟩ := pr
        cases b with
        | false =>
          left
          rw [fetch_image_unsafe_eq henv hstatus hsafe]
          exact ⟨rfl, rfl⟩
        | true =>
          by_cases hdup : calculate_content_hash resp.content ∈ st.downloadedHashes
          · left
            rw [fetch_image_duplicate_eq henv hstatus hsafe hdup]
            exact ⟨rfl, rfl⟩
          · cases hfn : get_filename_from_url url resp.contentType env.timestamp with
            | error e =>
              left
              rw [fetch_image_filename_error_eq henv hstatus hsafe hdup hfn]
              exact ⟨rfl, rfl⟩
            | ok fn =>
              cases hwrite : env.writeError with
              | some msg =>
                left
                rw [fetch_image_write_error_eq henv hstatus hsafe hdup hfn hwrite]
                exact ⟨rfl, rfl⟩
              | none =>
                right
                exact ⟨resp, m, fn, rfl, hstatus, hsafe, hdup, hfn, rfl⟩

/-- C1 counterexample: two fetch attempts that both reach the persistence
step and write successfully, with payloads of different byte sizes (4 and 8),
return the very same result (True, filepath).  The returned success result
therefore cannot carry the byte size of the payload: the source returns only
the pair (True, filepath) and merely prints the size, so the claimed
Success(filepath, byteSize) shape is refuted. -/
theorem claim_C1_counterexample :
    (fetch_image "https://example.com/cat.png"
      ⟨.ok ⟨200, some "image/png", none, [0, 1, 2, 3]⟩, 0, none⟩
      ⟨"Fetched_Images", [], []⟩).1 = (true, "Fetched_Images/cat.png") ∧
    (fetch_image "https://example.com/cat.png"
      ⟨.ok ⟨200, some "image/png", none, [0, 1, 2, 3, 4, 5, 6, 7]⟩, 0, none⟩
      ⟨"Fetched_Images", [], []⟩).1 = (true, "Fetched_Images/cat.png") ∧
    ([0, 1, 2, 3] : Bytes).length ≠ ([0, 1, 2, 3, 4, 5, 6, 7] : Bytes).length := by
  refine ⟨by decide, by decide, by decide⟩

/-- C1 (amended): for every fetch attempt that reaches the persistence step
and writes the payload successfully, fetch_image returns a success result
carrying the final file path (the byte size of the payload is computed and
printed, but is not part of the returned result); the written file and the
recorded digest land in the session state. -/
theorem claim_C1 (url : String) (env : FetchEnv) (st : FetcherState)
    (resp : Response) (m fn : String)
    (houtcome : env.outcome = .ok resp)
    (hstatus : ¬ (400 ≤ resp.statusCode ∧ resp.statusCode < 600))
    (hsafe : check_content_safety resp.contentType resp.contentLength = .ok (true, m))
    (hdup : calculate_content_hash resp.content ∉ st.downloadedHashes)
    (hfn : get_filename_from_url url resp.contentType env.timestamp = .ok fn)
    (hwrite : env.writeError = none) :
    fetch_image url env st =
      ((true, resolveCollision (st.files.map Prod.fst) (osPathJoin st.directory fn)),
       { st with
         files := (resolveCollision (st.files.map Prod.fst) (osPathJoin st.directory fn),
                   resp.content) :: st.files,
         downloadedHashes := hashInsert (calculate_content_hash resp.content)
                               st.downloadedHashes }) :=
  fetch_image_success_eq houtcome hstatus hsafe hdup hfn hwrite

/-- C1 witness: a concrete successful fetch of cat.png returning the final
path, with the file and the digest recorded. -/
theorem claim_C1_witness :
    fetch_image "https://example.com/cat.png"
      ⟨.ok ⟨200, some "image/png", none, [0, 1, 2, 3]⟩, 0, none⟩
      ⟨"Fetched_Images", [], []⟩ =
      ((true, "Fetched_Images/cat.png"),
       ⟨"Fetched_Images", ["h,0,1,2,3"], [("Fetched_Images/cat.png", [0, 1, 2, 3])]⟩) :=
  (claim_C1 "https://example.com/cat.png"
    ⟨.ok ⟨200, some "image/png", none, [0, 1, 2, 3]⟩, 0, none⟩
    ⟨"Fetched_Images", [], []⟩
    ⟨200, some "image/png", none, [0, 1, 2, 3]⟩ "Safe to download" "cat.png"
    rfl (by decide) (by decide) (by decide) (by decide) rfl).trans (by decide)

/-- C4: a fetch attempt whose payload digest is already in the seen-set
fails with reason "Duplicate image (already downloaded)" and leaves the
state (seen-set and storage) unchanged; consequently, fetching the same
content twice in one session succeeds the first time and is rejected as a
duplicate the second time, with the state left exactly as after the first
fetch. -/
theorem claim_C4 (url : String) (env : FetchEnv) (st : FetcherState) :
    (∀ resp m, env.outcome = .ok resp →
      ¬ (400 ≤ resp.statusCode ∧ resp.statusCode < 600) →
      check_content_safety resp.contentType resp.contentLength = .ok (true, m) →
      calculate_content_hash resp.content ∈ st.downloadedHashes →
      fetch_image url env st = ((false, "Duplicate image (already downloaded)"), st)) ∧
    ((fetch_image url env st).1.1 = true →
      fetch_image url env (fetch_image url env st).2 =
        ((false, "Duplicate image (already downloaded)"), (fetch_image url env st).2)) := by
  constructor
  · intro resp m h1 h2 h3 h4
    exact fetch_image_duplicate_eq h1 h2 h3 h4
  · intro hsucc
    rcases fetch_image_cases url env st with ⟨hflag, _⟩ | ⟨resp, m, fn, houtcome,
      hstatus, hsafe, hdup, hfn, hwrite⟩
    · rw [hflag] at hsucc; exact absurd hsucc (by simp)
    · rw [fetch_image_success_eq houtcome hstatus hsafe hdup hfn hwrite]
      exact fetch_image_duplicate_eq houtcome hstatus hsafe
        (mem_hashInsert_self _ _)

/-- C4 witness: fetching the same cat.png content twice from a fresh session
— the second attempt over the state left by the first is rejected as a
duplicate and leaves that state unchanged. -/
theorem claim_C4_witness :
    fetch_image "https://example.com/cat.png"
      ⟨.ok ⟨200, some "image/png", none, [0, 1, 2, 3]⟩, 0, none⟩
      (fetch_image "https://example.com/cat.png"
        ⟨.ok ⟨200, some "image/png", none, [0, 1, 2, 3]⟩, 0, none⟩
        ⟨"Fetched_Images", [], []⟩).2 =
      ((false, "Duplicate image (already downloaded)"),
       (fetch_image "https://example.com/cat.png"
         ⟨.ok ⟨200, some "image/png", none, [0, 1, 2, 3]⟩, 0, none⟩
         ⟨"Fetched_Images", [], []⟩).2) :=
  (claim_C4 "https://example.com/cat.png"
    ⟨.ok ⟨200, some "image/png", none, [0, 1, 2, 3]⟩, 0, none⟩
    ⟨"Fetched_Images", [], []⟩).2 (by decide)

/-- C5: the payload digest is added to the seen-set only together with the
write of the payload to the destination file — after any fetch attempt,
either the seen-set and the storage are both unchanged, or the storage
gained exactly the written file and the seen-set exactly the digest of its
bytes; and an I/O error while creating or writing the destination file makes
fetch_image return a file-save-error failure, without crashing and with the
seen-set (indeed the whole state) unchanged. -/
theorem claim_C5 (url : String) (env : FetchEnv) (st : FetcherState) :
    (((fetch_image url env st).2.downloadedHashes = st.downloadedHashes ∧
       (fetch_image url env st).2.files = st.files) ∨
     (∃ p, (fetch_image url env st).2.files = (p, contentOf env.outcome) :: st.files ∧
       (fetch_image url env st).2.downloadedHashes =
         hashInsert (calculate_content_hash (contentOf env.outcome))
           st.downloadedHashes)) ∧
    (∀ resp m fn msg, env.outcome = .ok resp →
      ¬ (400 ≤ resp.statusCode ∧ resp.statusCode < 600) →
      check_content_safety resp.contentType resp.contentLength = .ok (true, m) →
      calculate_content_hash resp.content ∉ st.downloadedHashes →
      get_filename_from_url url resp.contentType env.timestamp = .ok fn →
      env.writeError = some msg →
      fetch_image url env st = ((false, "File save error: " ++ msg), st)) := by
  constructor
  · rcases fetch_image_cases url env st with ⟨_, hstate⟩ | ⟨resp, m, fn, houtcome,
      hstatus, hsafe, hdup, hfn, hwrite⟩
    · left
      rw [hstate]
      exact ⟨rfl, rfl⟩
    · right
      rw [fetch_image_success_eq houtcome hstatus hsafe hdup hfn hwrite, houtcome]
      exact ⟨resolveCollision (st.files.map Prod.fst) (osPathJoin st.directory fn),
        rfl, rfl⟩
  · intro resp m fn msg h1 h2 h3 h4 h5 h6
    exact fetch_image_write_error_eq h1 h2 h3 h4 h5 h6

/-- C5 witness: a concrete fetch whose file write raises an IOError (no
space left on device) fails with the file-save-error reason and leaves the
fresh state unchanged. -/
theorem claim_C5_witness :
    fetch_image "https://example.com/cat.png"
      ⟨.ok ⟨200, some "image/png", none, [0, 1, 2, 3]⟩, 0,
        some "[Errno 28] No space left on device"⟩
      ⟨"Fetched_Images", [], []⟩ =
      ((false, "File save error: [Errno 28] No space left on device"),
       ⟨"Fetched_Images", [], []⟩) :=
  (claim_C5 "https://example.com/cat.png"
    ⟨.ok ⟨200, some "image/png", none, [0, 1, 2, 3]⟩, 0,
      some "[Errno 28] No space left on device"⟩
    ⟨"Fetched_Images", [], []⟩).2
    ⟨200, some "image/png", none, [0, 1, 2, 3]⟩ "Safe to download" "cat.png"
    "[Errno 28] No space left on device"
    rfl (by decide) (by decide) (by decide) (by decide) rfl

/-- C8: a response with an HTTP error status (400 to 599, the range on which
raise_for_status raises) makes fetch_image return a failure: status 404
yields "Image not found (404)", status 403 yields the forbidden-specific
reason, and every other error status yields "HTTP error " followed by the
code; the state is unchanged.  The embedding is a total function, so every
modelled error is converted into a (false, reason) pair and no exception
escapes. -/
theorem claim_C8 (url : String) (env : FetchEnv) (st : FetcherState)
    (resp : Response) (houtcome : env.outcome = .ok resp)
    (h4 : 400 ≤ resp.statusCode) (h6 : resp.statusCode < 600) :
    fetch_image url env st =
      ((false,
        if resp.statusCode = 404 then "Image not found (404)"
        else if resp.statusCode = 403 then
          "Access forbidden (403) - server rejected the request"
        else "HTTP error " ++ Nat.repr resp.statusCode), st) :=
  fetch_image_http_error_eq houtcome h4 h6

/-- C8 witness: concrete 404, 403 and 500 responses produce the three reason
shapes. -/
theorem claim_C8_witness :
    fetch_image "https://example.com/cat.png"
      ⟨.ok ⟨404, some "image/png", none, []⟩, 0, none⟩ ⟨"Fetched_Images", [], []⟩ =
      ((false, "Image not found (404)"), ⟨"Fetched_Images", [], []⟩) ∧
    fetch_image "https://example.com/cat.png"
      ⟨.ok ⟨403, some "image/png", none, []⟩, 0, none⟩ ⟨"Fetched_Images", [], []⟩ =
      ((false, "Access forbidden (403) - server rejected the request"),
       ⟨"Fetched_Images", [], []⟩) ∧
    fetch_image "https://example.com/cat.png"
      ⟨.ok ⟨500, some "image/png", none, []⟩, 0, none⟩ ⟨"Fetched_Images", [], []⟩ =
      ((false, "HTTP error 500"), ⟨"Fetched_Images", [], []⟩) := by
  refine ⟨?_, ?_, ?_⟩
  · exact (claim_C8 "https://example.com/cat.png"
      ⟨.ok ⟨404, some "image/png", none, []⟩, 0, none⟩ ⟨"Fetched_Images", [], []⟩
      ⟨404, some "image/png", none, []⟩ rfl (by decide) (by decide)).trans (by decide)
  · exact (claim_C8 "https://example.com/cat.png"
      ⟨.ok ⟨403, some "image/png", none, []⟩, 0, none⟩ ⟨"Fetched_Images", [], []⟩
      ⟨403, some "image/png", none, []⟩ rfl (by decide) (by decide)).trans (by decide)
  · exact (claim_C8 "https://example.com/cat.png"
      ⟨.ok ⟨500, some "image/png", none, []⟩, 0, none⟩ ⟨"Fetched_Images", [], []⟩
      ⟨500, some "image/png", none, []⟩ rfl (by decide) (by decide)).trans (by decide)

/-- C10: an image-typed response whose content-length header is a nonempty
string that does not parse as an integer makes check_content_safety raise
(the error case of the embedding, modelling the ValueError of int()), so the
check neither accepts nor rejects; within fetch_image this lands in the
generic Exception handler and is reported as an Unexpected-error failure
with the state unchanged, not as a safety-check failure, and the process
does not crash. -/
theorem claim_C10 (url : String) (env : FetchEnv) (st : FetcherState)
    (resp : Response) (s : String)
    (houtcome : env.outcome = .ok resp)
    (hstatus : ¬ (400 ≤ resp.statusCode ∧ resp.statusCode < 600))
    (himg : pyStartsWith (pyToLower (resp.contentType.getD "")) "image/" = true)
    (hlen : resp.contentLength = some s)
    (hs : s ≠ "")
    (hparse : pyInt s = none) :
    check_content_safety resp.contentType resp.contentLength =
      .error ("invalid literal for int() with base 10: " ++ s) ∧
    fetch_image url env st =
      ((false, "Unexpected error: invalid literal for int() with base 10: " ++ s),
       st) := by
  have hsafe : check_content_safety resp.contentType resp.contentLength =
      .error ("invalid literal for int() with base 10: " ++ s) := by
    simp only [check_content_safety, hlen]
    rw [if_neg (fun hc => hc himg), if_neg hs, hparse]
  exact ⟨hsafe, fetch_image_safety_error_eq houtcome hstatus hsafe⟩

/-- C10 witness: a concrete image response declaring content-length "abc"
is reported as an Unexpected-error failure. -/
theorem claim_C10_witness :
    check_content_safety (some "image/png") (some "abc") =
      .error "invalid literal for int() with base 10: abc" ∧
    fetch_image "https://example.com/cat.png"
      ⟨.ok ⟨200, some "image/png", some "abc", [0, 1]⟩, 0, none⟩
      ⟨"Fetched_Images", [], []⟩ =
      ((false, "Unexpected error: invalid literal for int() with base 10: abc"),
       ⟨"Fetched_Images", [], []⟩) :=
  claim_C10 "https://example.com/cat.png"
    ⟨.ok ⟨200, some "image/png", some "abc", [0, 1]⟩, 0, none⟩
    ⟨"Fetched_Images", [], []⟩
    ⟨200, some "image/png", some "abc", [0, 1]⟩ "abc"
    rfl (by decide) (by decide) rfl (by decide) (by decide)

/-- C9: a response with no content-type header is rejected by
check_content_safety with reason "Content is not an image (type: )", whatever
the content-length header says: the absent header is read back as the empty
string, which does not begin with "image/". -/
theorem claim_C9 (cl : Option String) :
    check_content_safety none cl =
      .ok (false, "Content is not an image (type: )") := rfl

/-- C6: the conflict loop never returns a path that already exists on
storage (no existing file is overwritten); an unused base path is returned
unchanged; when the base path exists it splits into name and extension and
returns name_N-extension for the first free N, trying N = 1, 2, ...
sequentially; and concretely an existing img.jpg yields img_1.jpg and, once
that exists too, img_2.jpg. -/
theorem claim_C6 :
    (∀ paths p, resolveCollision paths p ∉ paths) ∧
    (∀ paths p, p ∉ paths → resolveCollision paths p = p) ∧
    (∀ paths p n, p ∈ paths → 1 ≤ n →
      (∀ m, m < n → 1 ≤ m → collisionCandidate p m ∈ paths) →
      collisionCandidate p n ∉ paths →
      resolveCollision paths p = collisionCandidate p n) ∧
    resolveCollision ["Fetched_Images/img.jpg"] "Fetched_Images/img.jpg" =
      "Fetched_Images/img_1.jpg" ∧
    resolveCollision ["Fetched_Images/img.jpg", "Fetched_Images/img_1.jpg"]
      "Fetched_Images/img.jpg" = "Fetched_Images/img_2.jpg" :=
  ⟨resolveCollision_not_mem, resolveCollision_not_occupied, resolveCollision_seq,
    by decide, by decide⟩

/-- C6 witness: the sequential characterization and the skip case at
concrete inputs. -/
theorem claim_C6_witness :
    resolveCollision ["Fetched_Images/img.jpg", "Fetched_Images/img_1.jpg"]
      "Fetched_Images/img.jpg" = collisionCandidate "Fetched_Images/img.jpg" 2 ∧
    resolveCollision ["Fetched_Images/other.png"] "Fetched_Images/img.jpg" =
      "Fetched_Images/img.jpg" :=
  ⟨claim_C6.2.2.1 ["Fetched_Images/img.jpg", "Fetched_Images/img_1.jpg"]
      "Fetched_Images/img.jpg" 2 (by decide) (by decide) (by decide) (by decide),
    claim_C6.2.1 ["Fetched_Images/other.png"] "Fetched_Images/img.jpg" (by decide)⟩

/-- Invariant of the batch loop of fetch_multiple_images, by induction over
the remaining URLs: the processed trace extends in input order, each item
adds exactly one to one of the two counters, and one pacing sleep is added
per item that is not the last and whose URL passes validation. -/
theorem fetch_multiple_images_aux_spec (net : String → FetchEnv) :
    ∀ (l : List String) (st : FetcherState) (succ failedCount sleeps : Nat)
      (accRev : List String),
      (fetch_multiple_images_aux net l st succ failedCount sleeps accRev).processed =
        accRev.reverse ++ l ∧
      (fetch_multiple_images_aux net l st succ failedCount sleeps accRev).successful +
        (fetch_multiple_images_aux net l st succ failedCount sleeps accRev).failed =
        succ + failedCount + l.length ∧
      (fetch_multiple_images_aux net l st succ failedCount sleeps accRev).sleeps =
        sleeps + pacingSleeps l := by
  intro l
  induction l with
  | nil =>
    intro st succ failedCount sleeps accRev
    simp [fetch_multiple_images_aux, pacingSleeps]
  | cons u rest ih =>
    intro st succ failedCount sleeps accRev
    rcases hval : validate_url u with ⟨copt, eopt⟩
    cases eopt with
    | some e =>
      simp only [fetch_multiple_images_aux, hval]
      obtain ⟨h1, h2, h3⟩ := ih st succ (failedCount + 1) sleeps (u :: accRev)
      refine ⟨?_, ?_, ?_⟩
      · rw [h1]; simp
      · rw [h2]; simp [List.length_cons]; omega
      · rw [h3, pacingSleeps]
        have : (validate_url u).2 = some e := by rw [hval]
        simp [this]
    | none =>
      simp only [fetch_multiple_images_aux, hval]
      have hvalid : (validate_url u).2 = none := by rw [hval]
      have hsleep : ∀ r : BatchResult,
          r.sleeps = (if rest.isEmpty then sleeps else sleeps + 1) + pacingSleeps rest →
          r.sleeps = sleeps + pacingSleeps (u :: rest) := by
        intro r hr
        rw [hr, pacingSleeps, hvalid]
        cases rest with
        | nil => simp
        | cons v vs => simp [List.isEmpty]; omega
      by_cases hr : (fetch_image (copt.getD "") (net (copt.getD "")) st).1.1 = true
      · rw [if_pos hr]
        obtain ⟨h1, h2, h3⟩ := ih (fetch_image (copt.getD "") (net (copt.getD "")) st).2
          (succ + 1) failedCount (if rest.isEmpty then sleeps else sleeps + 1)
          (u :: accRev)
        refine ⟨?_, ?_, hsleep _ h3⟩
        · rw [h1]; simp
        · rw [h2]; simp [List.length_cons]; omega
      · rw [if_neg hr]
        obtain ⟨h1, h2, h3⟩ := ih (fetch_image (copt.getD "") (net (copt.getD "")) st).2
          succ (failedCount + 1) (if rest.isEmpty then sleeps else sleeps + 1)
          (u :: accRev)
        refine ⟨?_, ?_, hsleep _ h3⟩
        · rw [h1]; simp
        · rw [h2]; simp [List.length_cons]; omega

/-- All URLs validating is enough to give the claimed n - 1 pacing sleeps. -/
theorem pacingSleeps_all_valid :
    ∀ urls : List String, (∀ u ∈ urls, (validate_url u).2 = none) →
      pacingSleeps urls = urls.length - 1 := by
  intro urls
  induction urls with
  | nil => intro _; rfl
  | cons u rest ih =>
    intro h
    rw [pacingSleeps, h u (List.mem_cons_self u rest),
      ih (fun v hv => h v (List.mem_cons_of_mem u hv))]
    cases rest with
    | nil => simp
    | cons v vs => simp [List.isEmpty]; omega

/-- C7 counterexample: a batch of two URLs whose first is whitespace-only
(so validation fails and the continue statement skips the pacing sleep)
performs zero sleeps, not max(n - 1, 0) = 1 as claimed: the source pauses
only after items that passed validation. -/
theorem claim_C7_counterexample :
    (fetch_multiple_images
      (fun _ => ⟨.ok ⟨200, some "image/png", none, [1]⟩, 0, none⟩)
      ["   ", "example.com/a.png"] ⟨"Fetched_Images", [], []⟩).sleeps = 0 ∧
    (["   ", "example.com/a.png"] : List String).length - 1 = 1 := by
  exact ⟨by decide, by decide⟩

/-- C7 (amended): the batch runner processes the URLs strictly in input
order, no failure aborts the batch (every URL appears in the processed
trace), and the returned counters satisfy successful + failed = n.  The 500
ms pacing sleep happens after an item exactly when the item is not the last
and its URL passed validation (a validation failure continues to the next
URL, skipping the sleep), hence exactly pacingSleeps urls times, never after
the final item; in particular, when every URL passes validation it happens
exactly max(n - 1, 0) times as claimed. -/
theorem claim_C7 (net : String → FetchEnv) (urls : List String) (st : FetcherState) :
    (fetch_multiple_images net urls st).processed = urls ∧
    (fetch_multiple_images net urls st).successful +
      (fetch_multiple_images net urls st).failed = urls.length ∧
    (fetch_multiple_images net urls st).sleeps = pacingSleeps urls ∧
    ((∀ u ∈ urls, (validate_url u).2 = none) →
      (fetch_multiple_images net urls st).sleeps = urls.length - 1) := by
  obtain ⟨h1, h2, h3⟩ := fetch_multiple_images_aux_spec net urls st 0 0 0 []
  refine ⟨by simpa using h1, by simpa using h2, by simpa using h3, ?_⟩
  intro hall
  rw [show (fetch_multiple_images net urls st).sleeps = pacingSleeps urls
    from by simpa using h3, pacingSleeps_all_valid urls hall]

/-- C7 witness: a batch of three well-formed URLs sleeps exactly twice and
counts three results. -/
theorem claim_C7_witness :
    (fetch_multiple_images
      (fun _ => ⟨.ok ⟨200, some "image/png", none, [1]⟩, 0, none⟩)
      ["example.com/a.png", "example.com/b.png", "example.com/c.png"]
      ⟨"Fetched_Images", [], []⟩).processed =
      ["example.com/a.png", "example.com/b.png", "example.com/c.png"] ∧
    (fetch_multiple_images
      (fun _ => ⟨.ok ⟨200, some "image/png", none, [1]⟩, 0, none⟩)
      ["example.com/a.png", "example.com/b.png", "example.com/c.png"]
      ⟨"Fetched_Images", [], []⟩).sleeps = 2 := by
  have h := claim_C7
    (fun _ => ⟨.ok ⟨200, some "image/png", none, [1]⟩, 0, none⟩)
    ["example.com/a.png", "example.com/b.png", "example.com/c.png"]
    ⟨"Fetched_Images", [], []⟩
  exact ⟨h.1, (h.2.2.2 (by decide)).trans (by decide)⟩

end ImageFetcher
